import Mathlib

/-
Shallow embedding of the Tour Finalization Workflow Orchestrator
(`TourFinalizationService`) of the touring-app repository.

Conventions of the embedding:
* External effects (token refresh, HTTP order submission, database reads and
  writes) are represented by explicit environment parameters: an
  `Except String _` value stands for an awaited call that either resolves or
  throws, and a function `Nat → Nat` stands for the stream of
  `Math.floor(Math.random() * k)` draws, consumed left to right in program
  order.  A draw in the integer range `[lo, lo+k)` is embedded as
  `draws i % k + lo`.
* `Promise.all` over a batch of submissions is linearised: it resolves with
  the list of results when every submission resolves, and rejects with the
  first rejection in list order otherwise.
* Monetary string constants of the source (`"15.00"`, `"0.00"`, ...) are kept
  verbatim on line items; numeric totals that the source computes with `*`
  and `+` before stringifying are kept as naturals.
* JavaScript `a || b` on strings (falsy = empty string) is `strOr`.
-/

/-- JavaScript `a || b` for strings: the empty string is falsy. -/
def strOr (a b : String) : String := if a = "" then b else a

/-- Value of a decimal-digit run. -/
def digitsVal (cs : List Char) : Nat :=
  cs.foldl (fun acc c => acc * 10 + (c.toNat - ('0').toNat)) 0

/-- Numeric (whole-dollar) value of a monetary string such as `"15.00"`. -/
def parseDollars (s : String) : Nat :=
  digitsVal (s.toList.takeWhile fun c => c ≠ '.')

/-- A tour participant row (`tour_participants`). -/
structure Participant where
  name : String
  first_name : String
  last_name : String
  email : String
  company : String
  title : String
deriving DecidableEq

/-- The tour aggregate returned by `getTourDetails`. -/
structure TourData where
  id : String
  host_name : String
  host_first_name : String
  host_last_name : String
  participants : List Participant
  warehouse_name : String
  shiphero_warehouse_id : String
  selected_workflows : List String
  selected_skus : List String
deriving DecidableEq

/-- A sales-order line item as built by the order helpers. -/
structure SalesLineItem where
  sku : String
  quantity : Nat
  price : String
  product_name : String
  partner_line_item_id : String
  quantity_pending_fulfillment : Nat
  warehouse_id : String
deriving DecidableEq

/-- A sales-order request as built by the order helpers.  `subtotal` and
`total_price` hold the numeric value the source computes before calling
`toString` on it. -/
structure SalesOrder where
  order_number : String
  shop_name : String
  fulfillment_status : String
  subtotal : Nat
  total_price : Nat
  first_name : String
  last_name : String
  email : String
  line_items : List SalesLineItem
  tags : List String
deriving DecidableEq

/-- A purchase-order line item as built by `createStandardReceivingPO`. -/
structure POLineItem where
  sku : String
  quantity : Nat
  expected_weight_in_lbs : String
  vendor_id : String
  quantity_received : Nat
  quantity_rejected : Nat
  price : String
  product_name : String
  fulfillment_status : String
  sell_ahead : Nat
deriving DecidableEq

/-- A purchase-order request as built by `createStandardReceivingPO`.  The
monetary fields are the string constants of the source. -/
structure PurchaseOrder where
  po_number : String
  po_date : String
  vendor_id : String
  warehouse_id : String
  subtotal : String
  tax : String
  shipping_price : String
  total_price : String
  fulfillment_status : String
  discount : String
  line_items : List POLineItem
deriving DecidableEq

/-- Outcome of one `fetch` to the `/api/shiphero/orders` route:
either the response is not ok (the helper throws), or it is ok and the
parsed body either does or does not contain the created order, possibly with
a first GraphQL error message. -/
inductive ApiOutcome where
  | httpError (status : Nat) (body : String)
  | response (hasOrder : Bool) (firstErrorMessage : Option String)
deriving DecidableEq

/-- Whether an ok response body contains the created order
(`data.order_create.order` resp. `data.purchase_order_create.purchase_order`). -/
def hasOrder : ApiOutcome → Bool
  | .httpError _ _ => false
  | .response h _ => h

/-- First GraphQL error message of an ok response body (`data.errors[0].message`). -/
def firstErrMsg : ApiOutcome → Option String
  | .httpError _ _ => none
  | .response _ m => m

/-- Whether the fetch resolved with an ok HTTP response (no throw). -/
def resolved : ApiOutcome → Bool
  | .httpError _ _ => false
  | .response _ _ => true

/-- `createSalesOrderViaAPI`: throws on a non-ok HTTP response, otherwise
returns the parsed response body. -/
def createSalesOrderViaAPI : ApiOutcome → Except String ApiOutcome
  | .httpError s b => .error ("Failed to create sales order: " ++ toString s ++ " " ++ b)
  | .response h m => .ok (.response h m)

/-- `createPurchaseOrderViaAPI`: throws on a non-ok HTTP response, otherwise
returns the parsed response body. -/
def createPurchaseOrderViaAPI : ApiOutcome → Except String ApiOutcome
  | .httpError s b => .error ("Failed to create purchase order: " ++ toString s ++ " " ++ b)
  | .response h m => .ok (.response h m)

/-- `Promise.all`, linearised: resolves with all results, or rejects with the
first rejection in list order. -/
def promiseAll {α : Type} : List (Except String α) → Except String (List α)
  | [] => .ok []
  | .error e :: _ => .error e
  | .ok a :: rest =>
    match promiseAll rest with
    | .error e => .error e
    | .ok as => .ok (a :: as)

/-- The fan-out/fan-in pattern shared by every sales-order helper
(`createDemoOrders`, `createParticipantOrders`, ...): submit the whole batch
through `Promise.all`, then partition the resolved responses and count the
ones that contain a created order.  Failed responses are only logged. -/
def submitSalesBatch (outcomes : List ApiOutcome) : Except String Nat :=
  match promiseAll (outcomes.map createSalesOrderViaAPI) with
  | .error e => .error e
  | .ok results => .ok ((results.filter hasOrder).length)

/-- The submission tail of `createStandardReceivingPO`: await the purchase
order create call and throw when the response has no created purchase order. -/
def purchaseOrderSubmit (out : ApiOutcome) (workflowName : String) : Except String Unit :=
  match createPurchaseOrderViaAPI out with
  | .error e => .error e
  | .ok r =>
    if hasOrder r then .ok ()
    else .error ("Failed to create " ++ workflowName ++ " PO: " ++ (firstErrMsg r).getD "Unknown error")

/-- `initializeShipHero`: fails when no refresh token is stored, or when the
token refresh request is not ok; otherwise yields the access token. -/
def initShipHero (refreshToken : Option String) (tokenFetchOk : Bool) (accessToken : String) : Except String String :=
  match refreshToken with
  | none => .error "ShipHero refresh token is required. Please configure it in Settings → ShipHero tab."
  | some _ =>
    if tokenFetchOk then .ok accessToken
    else .error "Failed to get ShipHero access token. Please check your refresh token in Settings."

/-- One participant sales order (`createParticipantOrders` loop body, index
`i`): up to the first 3 selected SKUs, quantity 1, price `"10.00"` each, with
subtotal and total recomputed as `lineItems.length * 10`. -/
def mkParticipantOrder (td : TourData) (orderPfx : String) (i : Nat) (p : Participant) : SalesOrder :=
  let lineItems := (td.selected_skus.take 3).enum.map fun si =>
    { sku := si.2
      quantity := 1
      price := "10.00"
      product_name := "Product " ++ si.2
      partner_line_item_id := "participant-line-" ++ toString (i + 1) ++ "-" ++ toString (si.1 + 1)
      quantity_pending_fulfillment := 1
      warehouse_id := td.shiphero_warehouse_id : SalesLineItem }
  { order_number := orderPfx ++ "-PARTICIPANT-" ++ toString (i + 1)
    shop_name := "Touring App"
    fulfillment_status := "pending"
    subtotal := lineItems.length * 10
    total_price := lineItems.length * 10
    first_name := strOr p.first_name "Participant"
    last_name := strOr p.last_name (toString (i + 1))
    email := strOr p.email ("participant" ++ toString (i + 1) ++ "@demo.com")
    line_items := lineItems
    tags := ["participant", "tour"] }

/-- `createParticipantOrders`: returns `[]` when the tour has no participants
(before the SKU check), throws when no SKUs are selected, and otherwise builds
one order per participant.  The returned list is the batch that, when every
submission succeeds, is exactly the list of created orders. -/
def createParticipantOrders (td : TourData) (orderPfx : String) : Except String (List SalesOrder) :=
  if td.participants.length = 0 then .ok []
  else if td.selected_skus.length = 0 then
    .error "No SKUs selected for orders. Please select SKUs when creating the tour."
  else .ok (td.participants.enum.map fun pi => mkParticipantOrder td orderPfx pi.1 pi.2)

/-- Celebrity email of the source: lowercased first and last name with
whitespace removed from the last name. -/
def celebEmail (first last : String) : String :=
  first.toLower ++ "." ++ (last.toLower.replace " " "") ++ "@demo.com"

/-- One celebrity demo sales order (`createDemoOrders` loop body, index `i`):
a single line item on SKU `selected_skus[i % len]`, price `"15.00"`, quantity
and pending-fulfillment quantity drawn independently from `[1,3]`
(draw indices `2*i` and `2*i+1`), subtotal and total `quantity * 15`. -/
def mkDemoOrder (td : TourData) (orderPfx : String) (celebs : Nat → Option (String × String)) (draws : Nat → Nat) (i : Nat) : SalesOrder :=
  let celebrity := (celebs i).getD ("Demo", "Customer " ++ toString (i + 1))
  let sku := td.selected_skus.getD (i % td.selected_skus.length) ""
  let q := draws (2 * i) % 3 + 1
  let line : SalesLineItem :=
    { sku := sku
      quantity := q
      price := "15.00"
      product_name := "Product " ++ sku
      partner_line_item_id := "line-" ++ toString (i + 1)
      quantity_pending_fulfillment := draws (2 * i + 1) % 3 + 1
      warehouse_id := td.shiphero_warehouse_id }
  { order_number := orderPfx ++ "-" ++ toString (i + 1)
    shop_name := "Touring App"
    fulfillment_status := "pending"
    subtotal := q * 15
    total_price := q * 15
    first_name := celebrity.1
    last_name := celebrity.2
    email := celebEmail celebrity.1 celebrity.2
    line_items := [line]
    tags := ["demo", "celebrity", "tour"] }

/-- `createDemoOrders`: throws when no SKUs are selected, otherwise builds
`count` single-line celebrity demo orders. -/
def createDemoOrders (td : TourData) (orderPfx : String) (count : Nat) (celebs : Nat → Option (String × String)) (draws : Nat → Nat) : Except String (List SalesOrder) :=
  if td.selected_skus.length = 0 then
    .error "No SKUs selected for orders. Please select SKUs when creating the tour."
  else .ok ((List.range count).map (mkDemoOrder td orderPfx celebs draws))

/-- One simple demo sales order (`createSimpleDemoOrders` loop body): like a
celebrity demo order but with the fixed identity `Demo Customer <i+1>` and a
`demo.customer<i+1>@example.com` email, tags `["demo","simple","tour"]`. -/
def mkSimpleDemoOrder (td : TourData) (orderPfx : String) (draws : Nat → Nat) (i : Nat) : SalesOrder :=
  let sku := td.selected_skus.getD (i % td.selected_skus.length) ""
  let q := draws (2 * i) % 3 + 1
  let line : SalesLineItem :=
    { sku := sku
      quantity := q
      price := "15.00"
      product_name := "Product " ++ sku
      partner_line_item_id := "line-" ++ toString (i + 1)
      quantity_pending_fulfillment := draws (2 * i + 1) % 3 + 1
      warehouse_id := td.shiphero_warehouse_id }
  { order_number := orderPfx ++ "-" ++ toString (i + 1)
    shop_name := "Touring App"
    fulfillment_status := "pending"
    subtotal := q * 15
    total_price := q * 15
    first_name := "Demo"
    last_name := "Customer " ++ toString (i + 1)
    email := "demo.customer" ++ toString (i + 1) ++ "@example.com"
    line_items := [line]
    tags := ["demo", "simple", "tour"] }

/-- `createSimpleDemoOrders` (not referenced by any handler). -/
def createSimpleDemoOrders (td : TourData) (orderPfx : String) (count : Nat) (draws : Nat → Nat) : Except String (List SalesOrder) :=
  if td.selected_skus.length = 0 then
    .error "No SKUs selected for orders. Please select SKUs when creating the tour."
  else .ok ((List.range count).map (mkSimpleDemoOrder td orderPfx draws))

/-- One host demo sales order (`createHostDemoOrders` loop body): like a
celebrity demo order but under the host identity with fallbacks
`first_name || "Host"` and `last_name || name || "Demo"`. -/
def mkHostDemoOrder (td : TourData) (orderPfx : String) (draws : Nat → Nat) (i : Nat) : SalesOrder :=
  let sku := td.selected_skus.getD (i % td.selected_skus.length) ""
  let q := draws (2 * i) % 3 + 1
  let line : SalesLineItem :=
    { sku := sku
      quantity := q
      price := "15.00"
      product_name := "Product " ++ sku
      partner_line_item_id := "host-line-" ++ toString (i + 1)
      quantity_pending_fulfillment := draws (2 * i + 1) % 3 + 1
      warehouse_id := td.shiphero_warehouse_id }
  { order_number := orderPfx ++ "-" ++ toString (i + 1)
    shop_name := "Touring App"
    fulfillment_status := "pending"
    subtotal := q * 15
    total_price := q * 15
    first_name := strOr td.host_first_name "Host"
    last_name := strOr td.host_last_name (strOr td.host_name "Demo")
    email := "host.demo" ++ toString (i + 1) ++ "@example.com"
    line_items := [line]
    tags := ["demo", "host", "tour"] }

/-- `createHostDemoOrders`: throws when no SKUs are selected, otherwise builds
`count` single-line demo orders under the host identity. -/
def createHostDemoOrders (td : TourData) (orderPfx : String) (count : Nat) (draws : Nat → Nat) : Except String (List SalesOrder) :=
  if td.selected_skus.length = 0 then
    .error "No SKUs selected for orders. Please select SKUs when creating the tour."
  else .ok ((List.range count).map (mkHostDemoOrder td orderPfx draws))

/-- Number of line items of multi-item demo order `i` when the draw counter
stands at `k`: `min(2 + rand(0..2), selected_skus.length)`. -/
def multiNumItems (td : TourData) (draws : Nat → Nat) (k : Nat) : Nat :=
  min (draws k % 3 + 2) td.selected_skus.length

/-- Line item `j` of multi-item demo order `i`, with the order's draw counter
at `k` (the `numItems` draw used index `k`; line `j` draws quantity at
`k + 1 + 2*j` and pending-fulfillment quantity at `k + 2 + 2*j`). -/
def mkMultiLineItem (td : TourData) (draws : Nat → Nat) (i k j : Nat) : SalesLineItem :=
  let skuIndex := (i + j) % td.selected_skus.length
  let sku := td.selected_skus.getD skuIndex ""
  { sku := sku
    quantity := draws (k + 1 + 2 * j) % 3 + 1
    price := "12.00"
    product_name := "Product " ++ sku
    partner_line_item_id := "multi-line-" ++ toString (i + 1) ++ "-" ++ toString (j + 1)
    quantity_pending_fulfillment := draws (k + 2 + 2 * j) % 3 + 1
    warehouse_id := td.shiphero_warehouse_id }

/-- One multi-item celebrity demo order (`createMultiItemDemoOrders` loop
body): 2–4 line items on rotating SKUs, price `"12.00"`, subtotal and total
recomputed as the sum of `quantity * 12` over the line items. -/
def mkMultiDemoOrder (td : TourData) (orderPfx : String) (celebs : Nat → Option (String × String)) (draws : Nat → Nat) (i k : Nat) : SalesOrder :=
  let celebrity := (celebs i).getD ("Demo", "Customer " ++ toString (i + 1))
  let numItems := multiNumItems td draws k
  let lineItems := (List.range numItems).map (mkMultiLineItem td draws i k)
  { order_number := orderPfx ++ "-" ++ toString (i + 1)
    shop_name := "Touring App"
    fulfillment_status := "pending"
    subtotal := (lineItems.map fun li => li.quantity * 12).sum
    total_price := (lineItems.map fun li => li.quantity * 12).sum
    first_name := celebrity.1
    last_name := celebrity.2
    email := celebEmail celebrity.1 celebrity.2
    line_items := lineItems
    tags := ["multi-item", "celebrity", "tour"] }

/-- The loop of `createMultiItemDemoOrders`: orders indexed from `i`, draw
counter threaded through `k` (each order consumes `1 + 2 * numItems` draws). -/
def mkMultiDemoOrders (td : TourData) (orderPfx : String) (celebs : Nat → Option (String × String)) (draws : Nat → Nat) : Nat → Nat → Nat → List SalesOrder
  | _, _, 0 => []
  | i, k, c + 1 =>
    mkMultiDemoOrder td orderPfx celebs draws i k ::
      mkMultiDemoOrders td orderPfx celebs draws (i + 1) (k + 1 + 2 * multiNumItems td draws k) c

/-- `createMultiItemDemoOrders`: throws when no SKUs are selected, otherwise
builds `count` multi-item celebrity demo orders. -/
def createMultiItemDemoOrders (td : TourData) (orderPfx : String) (count : Nat) (celebs : Nat → Option (String × String)) (draws : Nat → Nat) : Except String (List SalesOrder) :=
  if td.selected_skus.length = 0 then
    .error "No SKUs selected for Multi-Item Demo Orders. Please select SKUs when creating the tour."
  else .ok (mkMultiDemoOrders td orderPfx celebs draws 0 0 count)

/-- `createStandardReceivingPO`, build phase: throws when no SKUs are
selected; otherwise caps at the first 6 selected SKUs, draws each quantity
from `[5,14]`, and fills every monetary field with the constant `"0.00"` and
the hardcoded vendor id `"1076735"`.  `today` is the
`new Date().toISOString().slice(0,10)` date string. -/
def createStandardReceivingPO (td : TourData) (workflowName : String) (today : String) (draws : Nat → Nat) : Except String PurchaseOrder :=
  if td.selected_skus.length = 0 then
    .error ("No SKUs selected for " ++ workflowName ++ " PO. Please select SKUs when creating the tour.")
  else
    let skusToUse := td.selected_skus.take 6
    .ok { po_number := workflowName ++ "-" ++ td.host_name ++ "-" ++ today
          po_date := today
          vendor_id := "1076735"
          warehouse_id := td.shiphero_warehouse_id
          subtotal := "0.00"
          tax := "0.00"
          shipping_price := "0.00"
          total_price := "0.00"
          fulfillment_status := "pending"
          discount := "0.00"
          line_items := skusToUse.enum.map fun si =>
            { sku := si.2
              quantity := draws si.1 % 10 + 5
              expected_weight_in_lbs := "1"
              vendor_id := "1076735"
              quantity_received := 0
              quantity_rejected := 0
              price := "0.00"
              product_name := si.2
              fulfillment_status := "pending"
              sell_ahead := 0 } }

/-- `createBulkShippingSOs`: participant orders first (prefix `BULK`), then 10
celebrity demo orders (prefix `BULK-DEMO`).  The returned list is the batch of
built order requests; when every submission succeeds it is exactly the list of
created sales orders. -/
def createBulkShippingSOs (td : TourData) (celebs : Nat → Option (String × String)) (draws : Nat → Nat) : Except String (List SalesOrder) :=
  match createParticipantOrders td "BULK" with
  | .error e => .error e
  | .ok ps =>
    match createDemoOrders td "BULK-DEMO" 10 celebs draws with
    | .error e => .error e
    | .ok ds => .ok (ps ++ ds)

/-- A section of the generated instruction guide, in emission order. -/
inductive GuideSection where
  | overview (warehouseName hostName : String) (participantCount : Nat)
  | welcome
  | warehouseOverview
  | demo (workflow : String) (number : Nat)
  | dashboard
  | qa
  | followUp
  | metrics
  | products (skus : List String)
  | footer (tourId : String)
deriving DecidableEq

/-- The workflow of a demonstration section, if any. -/
def extractDemo : GuideSection → Option String
  | .demo w _ => some w
  | _ => none

/-- Demonstration sections numbered by the running `workflowCounter`. -/
def demoSectionsFrom : Nat → List String → List GuideSection
  | _, [] => []
  | k, w :: ws => GuideSection.demo w k :: demoSectionsFrom (k + 1) ws

/-- The workflows that receive a demonstration section, in the emission order
of `generateInstructionGuide`: receive_to_light, pack_to_light,
multi_item_batch, single_item_batch, bulk_shipping.  `standard_receiving` has
no demonstration section. -/
def guideDemoWorkflows (sel : List String) : List String :=
  (if sel.contains "receive_to_light" then ["receive_to_light"] else []) ++
  (if sel.contains "pack_to_light" then ["pack_to_light"] else []) ++
  (if sel.contains "multi_item_batch" then ["multi_item_batch"] else []) ++
  (if sel.contains "single_item_batch" then ["single_item_batch"] else []) ++
  (if sel.contains "bulk_shipping" then ["bulk_shipping"] else [])

/-- `generateInstructionGuide` as a section list: fixed preamble, numbered
demonstration sections for the selected workflows, fixed closing sections. -/
def generateGuideSections (td : TourData) : List GuideSection :=
  [GuideSection.overview td.warehouse_name td.host_name td.participants.length,
   GuideSection.welcome, GuideSection.warehouseOverview] ++
  demoSectionsFrom 1 (guideDemoWorkflows td.selected_workflows) ++
  [GuideSection.dashboard, GuideSection.qa, GuideSection.followUp,
   GuideSection.metrics, GuideSection.products td.selected_skus,
   GuideSection.footer td.id]

/-- The workflows of the demonstration sections of a guide, in order. -/
def demoSectionWorkflows (gs : List GuideSection) : List String :=
  gs.filterMap extractDemo

/-- The fixed order in which the guide emits demonstration sections. -/
def guideOrder : List String :=
  ["receive_to_light", "pack_to_light", "multi_item_batch", "single_item_batch", "bulk_shipping"]

/-- The canonical workflow enumeration: the order of the six handler blocks
in `finalizeTour`. -/
def canonicalOrder : List String :=
  ["receive_to_light", "pack_to_light", "standard_receiving", "bulk_shipping", "single_item_batch", "multi_item_batch"]

/-- An observable call issued by `finalizeTour`: a workflow handler invocation
or a tour-status write. -/
inductive Event where
  | handlerRun (workflow : String)
  | statusWrite (status : String)
deriving DecidableEq

/-- The workflow name of a handler-run event, if any. -/
def extractHandler : Event → Option String
  | .handlerRun w => some w
  | .statusWrite _ => none

/-- The external world of one `finalizeTour` call: the outcome of
`initializeShipHero`, of `getTourDetails` (used both at the start and inside
`generateInstructionGuide`; the loader is deterministic within a call), of
each awaited workflow handler, and of `updateTourStatus`. -/
structure FinalizeWorld where
  session : Except String Unit
  load : Except String TourData
  handlers : String → Except String Unit
  statusWrite : Except String Unit

/-- The error strings a handler block contributes: none on success, one
`"<label> failed: <cause>"` string on a caught exception. -/
def blockErrors (w : FinalizeWorld) (name label : String) : List String :=
  match w.handlers name with
  | .ok _ => []
  | .error m => [label ++ " failed: " ++ m]

/-- One `if (selectedOptions.includes(name)) try handler catch push` block. -/
def applyBlock (w : FinalizeWorld) (sel : List String) (name label : String)
    (acc : List String × List Event) : List String × List Event :=
  if sel.contains name then
    (acc.1 ++ blockErrors w name label, acc.2 ++ [Event.handlerRun name])
  else acc

/-- The six handler blocks of `finalizeTour`, in source order. -/
def runBlocks (w : FinalizeWorld) (sel : List String) : List String × List Event :=
  applyBlock w sel "multi_item_batch" "Multi-Item Batch SOs"
    (applyBlock w sel "single_item_batch" "Single-Item Batch SOs"
      (applyBlock w sel "bulk_shipping" "Bulk Shipping SOs"
        (applyBlock w sel "standard_receiving" "Standard Receiving PO"
          (applyBlock w sel "pack_to_light" "Pack-to-Light Workflow"
            (applyBlock w sel "receive_to_light" "Receive-to-Light Workflow" ([], []))))))

/-- The value returned by `finalizeTour`, together with the trace of calls it
issued (`events`). -/
structure FinalizeResult where
  success : Bool
  message : String
  errors : List String
  instructionGuide : Option (List GuideSection)
  events : List Event
deriving DecidableEq

/-- `finalizeTour`: initialize the session and load the tour (both failures
reach the outer catch before any handler runs), run the six handler blocks,
generate the guide, write the tour status, and assemble the result; a throw
from guide generation or the status write also reaches the outer catch, which
returns `success: false` with the wrapping message prepended to the collected
errors. -/
def finalizeTour (w : FinalizeWorld) (sel : List String) : FinalizeResult :=
  match w.session with
  | .error e =>
    let msg := "Tour finalization failed: " ++ e
    { success := false, message := msg, errors := [msg], instructionGuide := none, events := [] }
  | .ok _ =>
    match w.load with
    | .error e =>
      let msg := "Tour finalization failed: " ++ e
      { success := false, message := msg, errors := [msg], instructionGuide := none, events := [] }
    | .ok td =>
      let res := runBlocks w sel
      let events := res.2 ++ [Event.statusWrite "finalized"]
      match w.statusWrite with
      | .error e =>
        let msg := "Tour finalization failed: " ++ e
        { success := false, message := msg, errors := msg :: res.1, instructionGuide := none, events := events }
      | .ok _ =>
        { success := res.1.isEmpty
          message :=
            if res.1.length > 0 then
              "Tour finalized with " ++ toString res.1.length ++ " workflow error(s). Instruction guide generated."
            else
              "Tour finalized successfully with all selected workflows. Instruction guide generated."
          errors := res.1
          instructionGuide := some (generateGuideSections td)
          events := events }

/-- The workflow handlers `finalizeTour` actually invoked, in order. -/
def handlerTrace (r : FinalizeResult) : List String :=
  r.events.filterMap extractHandler

/-- Internal-consistency predicate of a sales-order request: subtotal equals
total and both equal the sum of quantity times unit price over the line items. -/
def salesConsistent (o : SalesOrder) : Prop :=
  o.subtotal = o.total_price ∧
  o.subtotal = (o.line_items.map fun li => li.quantity * parseDollars li.price).sum

/-- Internal-consistency predicate of a purchase-order request, reading the
monetary strings numerically. -/
def poConsistent (po : PurchaseOrder) : Prop :=
  parseDollars po.subtotal = parseDollars po.total_price ∧
  parseDollars po.subtotal = (po.line_items.map fun li => li.quantity * parseDollars li.price).sum

/-- All sales orders a builder successfully returns are internally consistent. -/
def allOkSales (r : Except String (List SalesOrder)) : Prop :=
  ∀ os, r = .ok os → ∀ o ∈ os, salesConsistent o

/-- A successfully built purchase order is internally consistent. -/
def allOkPO (r : Except String PurchaseOrder) : Prop :=
  ∀ po, r = .ok po → poConsistent po

/-- Single-line demo order shape: exactly one line item, both random
quantities in `[1,3]`, and totals computed from the quantity alone. -/
def singleLineDemoOk (r : Except String (List SalesOrder)) : Prop :=
  ∀ os, r = .ok os → ∀ o ∈ os,
    o.line_items.length = 1 ∧
    ∀ li ∈ o.line_items,
      1 ≤ li.quantity ∧ li.quantity ≤ 3 ∧
      1 ≤ li.quantity_pending_fulfillment ∧ li.quantity_pending_fulfillment ≤ 3 ∧
      o.subtotal = li.quantity * 15 ∧ o.total_price = li.quantity * 15

/-- A concrete participant fixture. -/
def participantFx (nm : String) : Participant :=
  { name := nm, first_name := nm, last_name := "Example", email := nm ++ "@example.com",
    company := "", title := "" }

/-- A concrete tour fixture: two participants, two selected SKUs. -/
def tdEx : TourData :=
  { id := "tour-1"
    host_name := "Hope Host"
    host_first_name := "Hope"
    host_last_name := "Host"
    participants := [participantFx "Alice", participantFx "Blair"]
    warehouse_name := "Main DC"
    shiphero_warehouse_id := "WH-1"
    selected_workflows := ["bulk_shipping", "pack_to_light"]
    selected_skus := ["A", "B"] }

/-- A tour fixture whose only selected workflow is standard receiving. -/
def tdStandardOnly : TourData :=
  { tdEx with selected_workflows := ["standard_receiving"] }

/-- A tour fixture selecting bulk shipping and multi-item batch, in that order. -/
def tdBulkMulti : TourData :=
  { tdEx with selected_workflows := ["bulk_shipping", "multi_item_batch"] }

/-- A world in which every external call succeeds. -/
def wOk : FinalizeWorld :=
  { session := .ok (), load := .ok tdEx, handlers := fun _ => .ok (), statusWrite := .ok () }

/-- A world in which every workflow handler throws `boom`. -/
def wHandlersFail : FinalizeWorld :=
  { wOk with handlers := fun _ => .error "boom" }

/-- A world whose session initialization ran with no stored refresh token. -/
def wNoToken : FinalizeWorld :=
  { wOk with session := (initShipHero none true "tok").map fun _ => () }

/-- A default sales order used only to totalise partial lookups in closed
statements. -/
def emptySO : SalesOrder :=
  { order_number := "", shop_name := "", fulfillment_status := "", subtotal := 0,
    total_price := 0, first_name := "", last_name := "", email := "",
    line_items := [], tags := [] }

/-- A default sales line item used only to totalise partial lookups. -/
def emptyLine : SalesLineItem :=
  { sku := "", quantity := 0, price := "", product_name := "",
    partner_line_item_id := "", quantity_pending_fulfillment := 0, warehouse_id := "" }

/-- A default purchase order used only to totalise partial lookups. -/
def emptyPO : PurchaseOrder :=
  { po_number := "", po_date := "", vendor_id := "", warehouse_id := "",
    subtotal := "", tax := "", shipping_price := "", total_price := "",
    fulfillment_status := "", discount := "", line_items := [] }

/-- The purchase order built for `tdEx` with the identity draw stream. -/
def poEx : PurchaseOrder :=
  (createStandardReceivingPO tdEx "STANDARD-RECEIVING" "2026-01-01" (fun k => k)).toOption.getD emptyPO

theorem sum_map_constant {α : Type} (l : List α) (c : Nat) :
    (l.map fun _ => c).sum = l.length * c := by
  induction l with
  | nil => simp
  | cons a as ih => simp [ih, Nat.succ_mul, Nat.add_comm]

theorem promiseAll_sales_resolved (outcomes : List ApiOutcome)
    (h : ∀ o ∈ outcomes, resolved o = true) :
    promiseAll (outcomes.map createSalesOrderViaAPI) = .ok outcomes := by
  induction outcomes with
  | nil => rfl
  | cons o os ih =>
    have ho : resolved o = true := h o (by simp)
    have hos : ∀ x ∈ os, resolved x = true := fun x hx => h x (by simp [hx])
    cases o with
    | httpError s b => simp [resolved] at ho
    | response hb m =>
      simp [List.map_cons, createSalesOrderViaAPI, promiseAll, ih hos]

theorem runBlocks_events (w : FinalizeWorld) (sel : List String) :
    (runBlocks w sel).2 = (canonicalOrder.filter fun n => sel.contains n).map Event.handlerRun := by
  by_cases h1 : "receive_to_light" ∈ sel <;>
  by_cases h2 : "pack_to_light" ∈ sel <;>
  by_cases h3 : "standard_receiving" ∈ sel <;>
  by_cases h4 : "bulk_shipping" ∈ sel <;>
  by_cases h5 : "single_item_batch" ∈ sel <;>
  by_cases h6 : "multi_item_batch" ∈ sel <;>
  simp [runBlocks, applyBlock, canonicalOrder, List.filter, h1, h2, h3, h4, h5, h6]

theorem filterMap_handlerRun (l : List String) :
    (l.map Event.handlerRun).filterMap extractHandler = l := by
  induction l with
  | nil => rfl
  | cons a as ih => simp [extractHandler, ih]

theorem finalizeTour_events (w : FinalizeWorld) (sel : List String) (td : TourData)
    (hs : w.session = .ok ()) (hl : w.load = .ok td) :
    (finalizeTour w sel).events =
      ((canonicalOrder.filter fun n => sel.contains n).map Event.handlerRun) ++
        [Event.statusWrite "finalized"] := by
  have hev := runBlocks_events w sel
  cases hw : w.statusWrite with
  | error e => simp [finalizeTour, hs, hl, hw, hev]
  | ok u => simp [finalizeTour, hs, hl, hw, hev]

theorem demoSections_extract (l : List String) :
    ∀ k, (demoSectionsFrom k l).filterMap extractDemo = l := by
  induction l with
  | nil => intro k; rfl
  | cons w ws ih => intro k; simp [demoSectionsFrom, extractDemo, ih]

theorem guideDemo_filter (sel : List String) :
    guideDemoWorkflows sel = guideOrder.filter fun n => sel.contains n := by
  by_cases h1 : "receive_to_light" ∈ sel <;>
  by_cases h2 : "pack_to_light" ∈ sel <;>
  by_cases h3 : "multi_item_batch" ∈ sel <;>
  by_cases h4 : "single_item_batch" ∈ sel <;>
  by_cases h5 : "bulk_shipping" ∈ sel <;>
  simp [guideDemoWorkflows, guideOrder, List.filter, h1, h2, h3, h4, h5]

theorem mkParticipantOrder_consistent (td : TourData) (pfx : String) (i : Nat) (p : Participant) :
    salesConsistent (mkParticipantOrder td pfx i p) := by
  have h10 : parseDollars "10.00" = 10 := rfl
  refine ⟨rfl, ?_⟩
  simp [mkParticipantOrder, List.map_map, Function.comp_def, h10, sum_map_constant,
        List.enum_length, List.length_take]

theorem mkDemoOrder_consistent (td : TourData) (pfx : String)
    (celebs : Nat → Option (String × String)) (draws : Nat → Nat) (i : Nat) :
    salesConsistent (mkDemoOrder td pfx celebs draws i) := by
  have h15 : parseDollars "15.00" = 15 := rfl
  exact ⟨rfl, by simp [mkDemoOrder, h15]⟩

theorem mkSimpleDemoOrder_consistent (td : TourData) (pfx : String) (draws : Nat → Nat) (i : Nat) :
    salesConsistent (mkSimpleDemoOrder td pfx draws i) := by
  have h15 : parseDollars "15.00" = 15 := rfl
  exact ⟨rfl, by simp [mkSimpleDemoOrder, h15]⟩

theorem mkHostDemoOrder_consistent (td : TourData) (pfx : String) (draws : Nat → Nat) (i : Nat) :
    salesConsistent (mkHostDemoOrder td pfx draws i) := by
  have h15 : parseDollars "15.00" = 15 := rfl
  exact ⟨rfl, by simp [mkHostDemoOrder, h15]⟩

theorem mkMultiDemoOrder_consistent (td : TourData) (pfx : String)
    (celebs : Nat → Option (String × String)) (draws : Nat → Nat) (i k : Nat) :
    salesConsistent (mkMultiDemoOrder td pfx celebs draws i k) := by
  have h12 : parseDollars "12.00" = 12 := rfl
  refine ⟨rfl, ?_⟩
  simp [mkMultiDemoOrder, mkMultiLineItem, List.map_map, Function.comp_def, h12]

theorem mkMultiDemoOrders_consistent (td : TourData) (pfx : String)
    (celebs : Nat → Option (String × String)) (draws : Nat → Nat) :
    ∀ (c i k : Nat), ∀ o ∈ mkMultiDemoOrders td pfx celebs draws i k c, salesConsistent o := by
  intro c
  induction c with
  | zero => intro i k o ho; simp [mkMultiDemoOrders] at ho
  | succ n ih =>
    intro i k o ho
    simp only [mkMultiDemoOrders, List.mem_cons] at ho
    rcases ho with rfl | ho
    · exact mkMultiDemoOrder_consistent td pfx celebs draws i k
    · exact ih (i + 1) (k + 1 + 2 * multiNumItems td draws k) o ho

theorem mkDemoOrder_shape (td : TourData) (pfx : String)
    (celebs : Nat → Option (String × String)) (draws : Nat → Nat) (i : Nat) :
    (mkDemoOrder td pfx celebs draws i).line_items.length = 1 ∧
    ∀ li ∈ (mkDemoOrder td pfx celebs draws i).line_items,
      1 ≤ li.quantity ∧ li.quantity ≤ 3 ∧
      1 ≤ li.quantity_pending_fulfillment ∧ li.quantity_pending_fulfillment ≤ 3 ∧
      (mkDemoOrder td pfx celebs draws i).subtotal = li.quantity * 15 ∧
      (mkDemoOrder td pfx celebs draws i).total_price = li.quantity * 15 := by
  refine ⟨rfl, ?_⟩
  intro li hli
  have hq : draws (2 * i) % 3 < 3 := Nat.mod_lt _ (by omega)
  have hp : draws (2 * i + 1) % 3 < 3 := Nat.mod_lt _ (by omega)
  simp only [mkDemoOrder, List.mem_singleton] at hli
  subst hli
  refine ⟨?_, ?_, ?_, ?_, rfl, rfl⟩ <;> (dsimp only; omega)

theorem mkSimpleDemoOrder_shape (td : TourData) (pfx : String) (draws : Nat → Nat) (i : Nat) :
    (mkSimpleDemoOrder td pfx draws i).line_items.length = 1 ∧
    ∀ li ∈ (mkSimpleDemoOrder td pfx draws i).line_items,
      1 ≤ li.quantity ∧ li.quantity ≤ 3 ∧
      1 ≤ li.quantity_pending_fulfillment ∧ li.quantity_pending_fulfillment ≤ 3 ∧
      (mkSimpleDemoOrder td pfx draws i).subtotal = li.quantity * 15 ∧
      (mkSimpleDemoOrder td pfx draws i).total_price = li.quantity * 15 := by
  refine ⟨rfl, ?_⟩
  intro li hli
  have hq : draws (2 * i) % 3 < 3 := Nat.mod_lt _ (by omega)
  have hp : draws (2 * i + 1) % 3 < 3 := Nat.mod_lt _ (by omega)
  simp only [mkSimpleDemoOrder, List.mem_singleton] at hli
  subst hli
  refine ⟨?_, ?_, ?_, ?_, rfl, rfl⟩ <;> (dsimp only; omega)

theorem mkHostDemoOrder_shape (td : TourData) (pfx : String) (draws : Nat → Nat) (i : Nat) :
    (mkHostDemoOrder td pfx draws i).line_items.length = 1 ∧
    ∀ li ∈ (mkHostDemoOrder td pfx draws i).line_items,
      1 ≤ li.quantity ∧ li.quantity ≤ 3 ∧
      1 ≤ li.quantity_pending_fulfillment ∧ li.quantity_pending_fulfillment ≤ 3 ∧
      (mkHostDemoOrder td pfx draws i).subtotal = li.quantity * 15 ∧
      (mkHostDemoOrder td pfx draws i).total_price = li.quantity * 15 := by
  refine ⟨rfl, ?_⟩
  intro li hli
  have hq : draws (2 * i) % 3 < 3 := Nat.mod_lt _ (by omega)
  have hp : draws (2 * i + 1) % 3 < 3 := Nat.mod_lt _ (by omega)
  simp only [mkHostDemoOrder, List.mem_singleton] at hli
  subst hli
  refine ⟨?_, ?_, ?_, ?_, rfl, rfl⟩ <;> (dsimp only; omega)

/-- C1, counterexample: in a two-order sales batch in which only the second
order's create call fails at the HTTP level, `Promise.all` rejects and the
whole batch — hence the workflow handler — fails, contradicting the claim
that the failure of a single order create call never fails the workflow. -/
theorem sales_batch_single_failure_cex :
    submitSalesBatch [ApiOutcome.response true none, ApiOutcome.httpError 500 "boom"] =
      .error "Failed to create sales order: 500 boom" := by
  rfl

/-- C1, amended: a sales-order create call that resolves (ok HTTP response)
without a created order is scoped to that order — the batch still succeeds and
the order merely drops out of the success count — while the purchase-order
submission (a single-order batch) raises exactly when its order is not
created.  An HTTP-level rejection of any single call, however, fails the
whole batch (see the counterexample). -/
theorem sales_batch_failure_scoping (outcomes : List ApiOutcome) (wfName : String)
    (out : ApiOutcome) (h : ∀ o ∈ outcomes, resolved o = true) :
    submitSalesBatch outcomes = .ok ((outcomes.filter hasOrder).length) ∧
    (purchaseOrderSubmit out wfName = .ok () ↔ hasOrder out = true) := by
  constructor
  · have hp := promiseAll_sales_resolved outcomes h
    simp [submitSalesBatch, hp]
  · cases out with
    | httpError s b => simp [purchaseOrderSubmit, createPurchaseOrderViaAPI, hasOrder]
    | response hb m =>
      cases hb <;> simp [purchaseOrderSubmit, createPurchaseOrderViaAPI, hasOrder, firstErrMsg]

/-- Witness for the amended C1 statement at a concrete batch: one created and
one order-less response give a successful batch with success count 1. -/
theorem sales_batch_failure_scoping_witness :
    submitSalesBatch [ApiOutcome.response true none, ApiOutcome.response false none] = .ok 1 := by
  rw [(sales_batch_failure_scoping
        [ApiOutcome.response true none, ApiOutcome.response false none]
        "STANDARD-RECEIVING" (ApiOutcome.response true none) (by decide)).1]
  rfl

/-- C2, counterexample: with `standard_receiving` selected the guide contains
no demonstration section for it, and with `bulk_shipping` and
`multi_item_batch` selected the two sections appear in the order
multi-item-batch, bulk-shipping — not the canonical order.  Both contradict
"one demonstration section for each selected workflow ... in the fixed
canonical order". -/
theorem guide_sections_cex :
    demoSectionWorkflows (generateGuideSections tdStandardOnly) ≠
      canonicalOrder.filter (fun n => tdStandardOnly.selected_workflows.contains n) ∧
    demoSectionWorkflows (generateGuideSections tdBulkMulti) ≠
      canonicalOrder.filter (fun n => tdBulkMulti.selected_workflows.contains n) := by
  constructor <;> decide

/-- C2, amended: the guide contains one demonstration section per selected
workflow among receive-to-light, pack-to-light, multi-item-batch,
single-item-batch and bulk-shipping — `standard_receiving` gets no
demonstration section — and the sections appear in exactly that fixed order,
independent of the order of the selected-workflow list (any list with the
same membership yields the same sections). -/
theorem guide_sections_fixed_order (td : TourData) (sel : List String)
    (hm : ∀ n, td.selected_workflows.contains n = sel.contains n) :
    demoSectionWorkflows (generateGuideSections td) =
      guideOrder.filter fun n => sel.contains n := by
  have hfun : (fun n => sel.contains n) = fun n => td.selected_workflows.contains n :=
    funext fun n => (hm n).symm
  rw [hfun, ← guideDemo_filter]
  simp [demoSectionWorkflows, generateGuideSections, List.filterMap_append, extractDemo,
        demoSections_extract]

/-- Witness for the amended C2 statement at a concrete tour: bulk shipping
and pack-to-light selected in that order, sections emitted pack-to-light
first. -/
theorem guide_sections_fixed_order_witness :
    demoSectionWorkflows (generateGuideSections tdEx) = ["pack_to_light", "bulk_shipping"] := by
  rw [guide_sections_fixed_order tdEx tdEx.selected_workflows fun n => rfl]
  rfl

/-- C3: when the session initializes and the tour loads, the workflow
handlers `finalizeTour` invokes are exactly the selected ones, in the fixed
order receive-to-light, pack-to-light, standard-receiving, bulk-shipping,
single-item-batch, multi-item-batch; any selection list with the same
membership produces the same handler trace, so the order of the
`selectedOptions` argument is irrelevant. -/
theorem finalize_handlers_canonical (w : FinalizeWorld) (sel sel2 : List String) (td : TourData)
    (hs : w.session = .ok ()) (hl : w.load = .ok td)
    (hm : ∀ n, sel.contains n = sel2.contains n) :
    handlerTrace (finalizeTour w sel) = canonicalOrder.filter fun n => sel2.contains n := by
  have hfun : (fun n => sel2.contains n) = fun n => sel.contains n :=
    funext fun n => (hm n).symm
  rw [hfun]
  have hev := finalizeTour_events w sel td hs hl
  simp only [handlerTrace, hev, List.filterMap_append, filterMap_handlerRun]
  simp [extractHandler]

/-- Witness for C3: bulk shipping listed before pack-to-light still runs
pack-to-light first. -/
theorem finalize_handlers_canonical_witness :
    handlerTrace (finalizeTour wOk ["bulk_shipping", "pack_to_light"]) =
      ["pack_to_light", "bulk_shipping"] := by
  rw [finalize_handlers_canonical wOk ["bulk_shipping", "pack_to_light"]
        ["bulk_shipping", "pack_to_light"] tdEx rfl rfl fun n => rfl]
  rfl

/-- C4: when session initialization fails, `finalizeTour` returns
`success = false` with exactly the one wrapped top-level error, no
instruction guide, and issues no handler run and no status write. -/
theorem finalize_session_failure (w : FinalizeWorld) (sel : List String) (e : String)
    (hs : w.session = .error e) :
    finalizeTour w sel =
      { success := false
        message := "Tour finalization failed: " ++ e
        errors := ["Tour finalization failed: " ++ e]
        instructionGuide := none
        events := [] } := by
  simp [finalizeTour, hs]

/-- Witness for C4 at a world whose session initialization ran without a
stored refresh token. -/
theorem finalize_session_failure_witness :
    (finalizeTour wNoToken ["bulk_shipping"]).success = false ∧
    (finalizeTour wNoToken ["bulk_shipping"]).errors.length = 1 ∧
    (finalizeTour wNoToken ["bulk_shipping"]).instructionGuide = none ∧
    (finalizeTour wNoToken ["bulk_shipping"]).events = [] := by
  rw [finalize_session_failure wNoToken ["bulk_shipping"]
        "ShipHero refresh token is required. Please configure it in Settings → ShipHero tab." rfl]
  exact ⟨rfl, rfl, rfl, rfl⟩

/-- C5: whenever the session initializes and the tour loads (so the handler
blocks were allowed to run), `finalizeTour` issues exactly one status write,
with value `finalized`, and it comes after every selected handler invocation
— with no hypothesis on the handler outcomes, so this also holds when some or
all selected workflows failed. -/
theorem finalize_status_written_once (w : FinalizeWorld) (sel : List String) (td : TourData)
    (hs : w.session = .ok ()) (hl : w.load = .ok td) :
    (finalizeTour w sel).events =
      ((canonicalOrder.filter fun n => sel.contains n).map Event.handlerRun) ++
        [Event.statusWrite "finalized"] :=
  finalizeTour_events w sel td hs hl

/-- Witness for C5 at a world in which every selected workflow handler
throws: the status write is still issued exactly once, after the handlers. -/
theorem finalize_status_written_once_witness :
    (finalizeTour wHandlersFail ["bulk_shipping", "pack_to_light"]).events =
      [Event.handlerRun "pack_to_light", Event.handlerRun "bulk_shipping",
       Event.statusWrite "finalized"] := by
  rw [finalize_status_written_once wHandlersFail ["bulk_shipping", "pack_to_light"] tdEx rfl rfl]
  rfl

/-- C6: on the normal completion path (session, load and status write all
succeed, so the handler sequence ran to the final return), the returned
success flag is true exactly when the aggregated error list is empty, and a
nonempty list makes the message report the count of workflow errors. -/
theorem finalize_success_iff_no_errors (w : FinalizeWorld) (sel : List String) (td : TourData)
    (hs : w.session = .ok ()) (hl : w.load = .ok td) (hw : w.statusWrite = .ok ()) :
    ((finalizeTour w sel).success = true ↔ (finalizeTour w sel).errors = []) ∧
    ((finalizeTour w sel).errors ≠ [] →
      (finalizeTour w sel).message =
        "Tour finalized with " ++ toString (finalizeTour w sel).errors.length ++
          " workflow error(s). Instruction guide generated.") := by
  simp only [finalizeTour, hs, hl, hw]
  constructor
  · simp [List.isEmpty_iff]
  · intro hne
    have hpos : (runBlocks w sel).1.length > 0 := List.length_pos.2 hne
    simp [hpos]

/-- Witness for C6 at a world where both selected handlers throw: success is
false, the error list has two entries, and the message reports the count 2. -/
theorem finalize_success_iff_no_errors_witness :
    (finalizeTour wHandlersFail ["bulk_shipping", "pack_to_light"]).message =
      "Tour finalized with 2 workflow error(s). Instruction guide generated." := by
  rw [(finalize_success_iff_no_errors wHandlersFail ["bulk_shipping", "pack_to_light"]
        tdEx rfl rfl rfl).2 (by decide)]
  rfl

/-- C7, counterexample: a tour with two participants and two selected SKUs,
all submissions succeeding, does create 12 sales orders for bulk shipping —
but the first (participant) order carries 2 line items, not a single one. -/
theorem bulk_shipping_single_line_cex :
    ((createBulkShippingSOs tdEx (fun _ => none) (fun _ => 0)).toOption.getD []).length = 12 ∧
    (((createBulkShippingSOs tdEx (fun _ => none) (fun _ => 0)).toOption.getD
        []).headD emptySO).line_items.length = 2 := by
  constructor <;> rfl

/-- C7, amended: bulk shipping with 2 participants and a non-empty selected
SKU list, all submissions succeeding, creates exactly 12 sales orders — 2
participant orders followed by 10 demo orders; each demo order has a single
line item, while each participant order has `min 3 (number of selected SKUs)`
line items (a single line item only when exactly one SKU is selected). -/
theorem bulk_shipping_order_counts (td : TourData)
    (celebs : Nat → Option (String × String)) (draws : Nat → Nat)
    (h2 : td.participants.length = 2) (hsk : td.selected_skus.length ≠ 0) :
    ∃ orders, createBulkShippingSOs td celebs draws = .ok orders ∧
      orders.length = 12 ∧
      (∀ o ∈ orders.drop 2, o.line_items.length = 1) ∧
      (∀ o ∈ orders.take 2, o.line_items.length = min 3 td.selected_skus.length) := by
  have hps : createParticipantOrders td "BULK" =
      .ok (td.participants.enum.map fun pi => mkParticipantOrder td "BULK" pi.1 pi.2) := by
    simp [createParticipantOrders, h2, hsk]
  have hds : createDemoOrders td "BULK-DEMO" 10 celebs draws =
      .ok ((List.range 10).map (mkDemoOrder td "BULK-DEMO" celebs draws)) := by
    simp [createDemoOrders, hsk]
  have hplen : (td.participants.enum.map fun pi => mkParticipantOrder td "BULK" pi.1 pi.2).length = 2 := by
    simp [List.length_map, List.enum_length, h2]
  refine ⟨(td.participants.enum.map fun pi => mkParticipantOrder td "BULK" pi.1 pi.2) ++
      (List.range 10).map (mkDemoOrder td "BULK-DEMO" celebs draws),
    by simp [createBulkShippingSOs, hps, hds], ?_, ?_, ?_⟩
  · simp [List.length_append, hplen]
  · rw [show (2 : Nat) = (td.participants.enum.map fun pi =>
        mkParticipantOrder td "BULK" pi.1 pi.2).length from hplen.symm, List.drop_left]
    intro o ho
    rcases List.mem_map.1 ho with ⟨i, hi, rfl⟩
    rfl
  · rw [show (2 : Nat) = (td.participants.enum.map fun pi =>
        mkParticipantOrder td "BULK" pi.1 pi.2).length from hplen.symm, List.take_left]
    intro o ho
    rcases List.mem_map.1 ho with ⟨pi, hpi, rfl⟩
    simp [mkParticipantOrder, List.length_map, List.enum_length, List.length_take]

/-- Witness for the amended C7 statement at a concrete tour with two
participants and two SKUs. -/
theorem bulk_shipping_order_counts_witness :
    ((createBulkShippingSOs tdEx (fun _ => none) (fun k => k)).toOption.getD []).length = 12 := by
  obtain ⟨orders, hok, hlen, -, -⟩ :=
    bulk_shipping_order_counts tdEx (fun _ => none) (fun k => k) rfl (by decide)
  rw [hok]
  simpa using hlen

/-- C8: every order request the builders successfully return — participant,
celebrity demo, simple demo, host demo and multi-item demo sales orders, and
the standard-receiving purchase order — has subtotal equal to total price and
both equal to the sum over its line items of quantity times unit price. -/
theorem order_totals_consistent :
    ∀ (td : TourData) (pfx today : String) (celebs : Nat → Option (String × String))
      (draws : Nat → Nat) (count : Nat),
      allOkSales (createParticipantOrders td pfx) ∧
      allOkSales (createDemoOrders td pfx count celebs draws) ∧
      allOkSales (createSimpleDemoOrders td pfx count draws) ∧
      allOkSales (createHostDemoOrders td pfx count draws) ∧
      allOkSales (createMultiItemDemoOrders td pfx count celebs draws) ∧
      allOkPO (createStandardReceivingPO td pfx today draws) := by
  intro td pfx today celebs draws count
  refine ⟨?_, ?_, ?_, ?_, ?_, ?_⟩
  · intro os h o ho
    rw [createParticipantOrders] at h
    split at h
    · rcases h with ⟨⟩
      simp at ho
    · split at h
      · exact absurd h (by simp)
      · rcases h with ⟨⟩
        rcases List.mem_map.1 ho with ⟨pi, hpi, rfl⟩
        exact mkParticipantOrder_consistent td pfx pi.1 pi.2
  · intro os h o ho
    rw [createDemoOrders] at h
    split at h
    · exact absurd h (by simp)
    · rcases h with ⟨⟩
      rcases List.mem_map.1 ho with ⟨i, hi, rfl⟩
      exact mkDemoOrder_consistent td pfx celebs draws i
  · intro os h o ho
    rw [createSimpleDemoOrders] at h
    split at h
    · exact absurd h (by simp)
    · rcases h with ⟨⟩
      rcases List.mem_map.1 ho with ⟨i, hi, rfl⟩
      exact mkSimpleDemoOrder_consistent td pfx draws i
  · intro os h o ho
    rw [createHostDemoOrders] at h
    split at h
    · exact absurd h (by simp)
    · rcases h with ⟨⟩
      rcases List.mem_map.1 ho with ⟨i, hi, rfl⟩
      exact mkHostDemoOrder_consistent td pfx draws i
  · intro os h o ho
    rw [createMultiItemDemoOrders] at h
    split at h
    · exact absurd h (by simp)
    · rcases h with ⟨⟩
      exact mkMultiDemoOrders_consistent td pfx celebs draws count 0 0 o ho
  · intro po h
    rw [createStandardReceivingPO] at h
    split at h
    · exact absurd h (by simp)
    · rcases h with ⟨⟩
      have h0 : parseDollars "0.00" = 0 := rfl
      refine ⟨rfl, ?_⟩
      simp [poConsistent, h0, List.map_map, Function.comp_def, sum_map_constant]

/-- C9: every successfully built standard-receiving purchase order carries the
constant monetary fields `"0.00"` (subtotal, tax, shipping, total, discount)
and the hardcoded vendor id `"1076735"`, and each of its line items is priced
`"0.00"` with product name equal to its SKU, zero received and zero rejected
quantities, and the same vendor id — for every tour, workflow label, date and
draw stream. -/
theorem po_hardcoded_constants (td : TourData) (wfName today : String) (draws : Nat → Nat)
    (po : PurchaseOrder) (h : createStandardReceivingPO td wfName today draws = .ok po) :
    po.vendor_id = "1076735" ∧ po.subtotal = "0.00" ∧ po.tax = "0.00" ∧
    po.shipping_price = "0.00" ∧ po.total_price = "0.00" ∧ po.discount = "0.00" ∧
    ∀ li ∈ po.line_items,
      li.price = "0.00" ∧ li.product_name = li.sku ∧
      li.quantity_received = 0 ∧ li.quantity_rejected = 0 ∧ li.vendor_id = "1076735" := by
  rw [createStandardReceivingPO] at h
  split at h
  · exact absurd h (by simp)
  · rcases h with ⟨⟩
    refine ⟨rfl, rfl, rfl, rfl, rfl, rfl, ?_⟩
    intro li hli
    rcases List.mem_map.1 hli with ⟨si, hsi, rfl⟩
    exact ⟨rfl, rfl, rfl, rfl, rfl⟩

/-- Witness for C9 at a concrete tour and draw stream. -/
theorem po_hardcoded_constants_witness : poEx.vendor_id = "1076735" :=
  (po_hardcoded_constants tdEx "STANDARD-RECEIVING" "2026-01-01" (fun k => k) poEx rfl).1

/-- C10: in every successfully built single-line demo sales order (celebrity,
simple, and host-demo variants) there is exactly one line item, its quantity
and pending-fulfillment quantity each lie in `[1,3]` — they are separate
draws, indices `2*i` and `2*i+1` of the stream, so the concrete stream
`fun k => k` produces an order whose quantity is 1 while its pending
quantity is 2 — and the subtotal and total are `quantity * 15`, computed from
the quantity alone. -/
theorem demo_quantities_independent :
    (∀ (td : TourData) (pfx : String) (celebs : Nat → Option (String × String))
        (draws : Nat → Nat) (count : Nat),
      singleLineDemoOk (createDemoOrders td pfx count celebs draws) ∧
      singleLineDemoOk (createSimpleDemoOrders td pfx count draws) ∧
      singleLineDemoOk (createHostDemoOrders td pfx count draws)) ∧
    ((((createDemoOrders tdEx "DEMO" 1 (fun _ => none) (fun k => k)).toOption.getD
        []).headD emptySO).line_items.headD emptyLine).quantity = 1 ∧
    ((((createDemoOrders tdEx "DEMO" 1 (fun _ => none) (fun k => k)).toOption.getD
        []).headD emptySO).line_items.headD emptyLine).quantity_pending_fulfillment = 2 := by
  refine ⟨?_, rfl, rfl⟩
  intro td pfx celebs draws count
  refine ⟨?_, ?_, ?_⟩
  · intro os h o ho
    rw [createDemoOrders] at h
    split at h
    · exact absurd h (by simp)
    · rcases h with ⟨⟩
      rcases List.mem_map.1 ho with ⟨i, hi, rfl⟩
      exact mkDemoOrder_shape td pfx celebs draws i
  · intro os h o ho
    rw [createSimpleDemoOrders] at h
    split at h
    · exact absurd h (by simp)
    · rcases h with ⟨⟩
      rcases List.mem_map.1 ho with ⟨i, hi, rfl⟩
      exact mkSimpleDemoOrder_shape td pfx draws i
  · intro os h o ho
    rw [createHostDemoOrders] at h
    split at h
    · exact absurd h (by simp)
    · rcases h with ⟨⟩
      rcases List.mem_map.1 ho with ⟨i, hi, rfl⟩
      exact mkHostDemoOrder_shape td pfx draws i
